import Mathlib

/-!
Shallow embedding of the GenVR MCP server (remote-mcp-server-authless).

The repository has two entry points sharing the same design:
* the Worker entry point (src/index.ts): request helper makeGenVRRequest,
  poller waitForCompletion, inline schema-to-zod conversion, tool handler;
* the standalone stdio entry point: request helper callGenVRAPI, poller
  waitForCompletion, generateTools schema translation, and the
  CallToolRequestSchema handler that parses tool names and normalizes
  arguments.

Pure data and control flow are translated directly; the network is
modelled by oracles supplying, per call, either a network failure message
or the HTTP response the remote system would return.
-/

/-- Model of a JavaScript JSON value.  Numbers are rationals (every value
the code manipulates is exact in IEEE doubles and in particular integral
or of tiny denominator). -/
inductive JVal where
  | str : String → JVal
  | num : ℚ → JVal
  | bool : Bool → JVal
  | null : JVal
  | arr : List JVal → JVal
  | obj : List (String × JVal) → JVal

/-- Model of a JavaScript object: key/value pairs in insertion order.
JavaScript objects have unique keys; theorems that need uniqueness take a
Nodup hypothesis on the key list. -/
abbrev JObj := List (String × JVal)

/-- Model of JavaScript property read o[k]: the value at the first
occurrence of the key, or undefined (none). -/
def getKey {β : Type} : List (String × β) → String → Option β
  | [], _ => none
  | (k, v) :: rest, key => if k = key then some v else getKey rest key

/-- Model of JavaScript delete o[k]. -/
def eraseKey {β : Type} : List (String × β) → String → List (String × β)
  | [], _ => []
  | (k, v) :: rest, key =>
    if k = key then eraseKey rest key else (k, v) :: eraseKey rest key

/-- Model of JavaScript property write o[k] = v: overwrite in place at
the first occurrence of the key, append otherwise. -/
def insertKey {β : Type} : List (String × β) → String → β → List (String × β)
  | [], key, v => [(key, v)]
  | (k, w) :: rest, key, v =>
    if k = key then (key, v) :: rest
    else (k, w) :: insertKey rest key v

/-- Model of the JavaScript object spread followed by overrides, as in
the literal where the fields of b are written on top of a. -/
def spreadObj {β : Type} (a b : List (String × β)) : List (String × β) :=
  b.foldl (fun acc kv => insertKey acc kv.1 kv.2) a

/-- JavaScript truthiness of a JSON value (objects and arrays are always
truthy; empty string, zero, false and null are falsy). -/
def jsTruthy : JVal → Bool
  | .str s => s ≠ ""
  | .num q => q ≠ 0
  | .bool b => b
  | .null => false
  | .arr _ => true
  | .obj _ => true

/-- Model of the JavaScript expression a || b on possibly-undefined
strings: a unless a is undefined or empty. -/
def jsOrStr : Option String → Option String → Option String
  | none, b => b
  | some s, b => if s = "" then b else some s

/-- Model of the JavaScript expression a || d on a possibly-undefined
string with a definite default string d. -/
def jsStrD : Option String → String → String
  | none, d => d
  | some s, d => if s = "" then d else s

/-- Model of required?.includes(key): false when the list is undefined. -/
def jsIncludes (o : Option (List String)) (key : String) : Bool :=
  match o with
  | some l => l.contains key
  | none => false

/-- Model of an HTTP response as received by fetch: the ok flag
(status in the 2xx range), status code, status text, raw body text, and
the parsed JSON payload used on the success path. -/
structure HttpResponse (α : Type) where
  ok : Bool
  status : ℕ
  statusText : String
  bodyText : String
  json : α

/-- Transport-level failure taxonomy of the standalone request helper:
a non-2xx HTTP response (carrying status code, status text and response
body) or a network error (the fetch rejection message). -/
inductive RemoteErr where
  | httpError (status : ℕ) (statusText : String) (bodyText : String)
  | networkError (msg : String)

/-- Model of callGenVRAPI of the standalone entry point: the argument is
the transport outcome (network error, or the HTTP response).  On a non-ok
response it throws the GenVR API error carrying status and body; a
network error propagates; otherwise the parsed JSON is returned. -/
def callGenVRAPI {α : Type} (r : Except String (HttpResponse α)) :
    Except RemoteErr α :=
  match r with
  | .error msg => .error (.networkError msg)
  | .ok resp =>
    if resp.ok then .ok resp.json
    else .error (.httpError resp.status resp.statusText resp.bodyText)

/-- Model of makeGenVRRequest of the Worker entry point: the same
transport outcome, but the helper catches every failure (non-ok response
or network error) and returns null (none). -/
def makeGenVRRequest {α : Type} (r : Except String (HttpResponse α)) :
    Option α :=
  match r with
  | .error _ => none
  | .ok resp => if resp.ok then some resp.json else none

/-- Fields of a /status response payload that the pollers read:
statusData.data?.status, statusData.status, statusData.data?.error and
statusData.error (a missing data object and a missing field both read as
undefined). -/
structure StatusData where
  dataStatus : Option String
  topStatus : Option String
  dataError : Option String
  topError : Option String

/-- Model of the expression statusData.data?.status || statusData.status. -/
def jsStatus (sd : StatusData) : Option String :=
  jsOrStr sd.dataStatus sd.topStatus

/-- Model of Math.min on (non-NaN) numbers. -/
def jsMin (a b : ℚ) : ℚ := if a ≤ b then a else b

/-- Backoff delay before the next attempt after attempt i (0-indexed)
observed a non-terminal status: Math.min(2000 * Math.pow(1.5, i), 10000)
milliseconds. -/
def backoffDelay (i : ℕ) : ℚ :=
  jsMin (2000 * (1.5 : ℚ) ^ i) 10000

/-- Errors raised by the standalone poller: a propagated transport
failure, the Task failed error (with its full message), or the
Task timed out error. -/
inductive PollErr where
  | remote (e : RemoteErr)
  | taskFailed (msg : String)
  | timedOut

/-- Observable outcome of one run of the standalone poller: its result
or error, how many /status calls and /response calls it issued, and the
list of delays it slept, in order. -/
structure PollOutcome (α : Type) where
  result : Except PollErr α
  statusCalls : ℕ
  fetchCalls : ℕ
  sleeps : List ℚ

/-- Observable outcome of one run of the Worker poller.  Its success
value is an Option because the Worker helper returns null on a failed
/response call and the poller returns that null as its result. -/
structure PollOutcomeW (α : Type) where
  result : Except String (Option α)
  statusCalls : ℕ
  fetchCalls : ℕ
  sleeps : List ℚ

/-- Loop body of waitForCompletion of the standalone entry point.  The
first argument yields the transport outcome of the i-th /status call,
the second the transport outcome of the single /response call; i is the
current attempt index and fuel the number of attempts left
(maxAttempts - i, so fuel 0 falls off the loop and times out). -/
def waitForCompletionAux {α : Type}
    (statusT : ℕ → Except String (HttpResponse StatusData))
    (fetchT : Except String (HttpResponse α)) : ℕ → ℕ → PollOutcome α
  | _, 0 => ⟨.error .timedOut, 0, 0, []⟩
  | i, fuel + 1 =>
    match callGenVRAPI (statusT i) with
    | .error e => ⟨.error (.remote e), 1, 0, []⟩
    | .ok sd =>
      if jsStatus sd = some "completed" then
        match callGenVRAPI fetchT with
        | .error e => ⟨.error (.remote e), 1, 1, []⟩
        | .ok p => ⟨.ok p, 1, 1, []⟩
      else if jsStatus sd = some "failed" then
        ⟨.error (.taskFailed
          ("Task failed: " ++ jsStrD (jsOrStr sd.dataError sd.topError) "Unknown error")),
          1, 0, []⟩
      else
        let rest := waitForCompletionAux statusT fetchT (i + 1) fuel
        ⟨rest.result, rest.statusCalls + 1, rest.fetchCalls,
          backoffDelay i :: rest.sleeps⟩

/-- Model of waitForCompletion of the standalone entry point
(maxAttempts defaults to 60). -/
def waitForCompletion {α : Type}
    (statusT : ℕ → Except String (HttpResponse StatusData))
    (fetchT : Except String (HttpResponse α)) (maxAttempts : ℕ := 60) :
    PollOutcome α :=
  waitForCompletionAux statusT fetchT 0 maxAttempts

/-- Loop body of waitForCompletion of the Worker entry point: the
request helper returns null on any transport failure, a null status
response throws the generic Failed to get status error, and on completed
the /response payload is returned without a null check. -/
def waitForCompletionAuxW {α : Type}
    (statusT : ℕ → Except String (HttpResponse StatusData))
    (fetchT : Except String (HttpResponse α)) : ℕ → ℕ → PollOutcomeW α
  | _, 0 => ⟨.error "Task timed out", 0, 0, []⟩
  | i, fuel + 1 =>
    match makeGenVRRequest (statusT i) with
    | none => ⟨.error "Failed to get status", 1, 0, []⟩
    | some sd =>
      if jsStatus sd = some "completed" then
        ⟨.ok (makeGenVRRequest fetchT), 1, 1, []⟩
      else if jsStatus sd = some "failed" then
        ⟨.error
          ("Task failed: " ++ jsStrD (jsOrStr sd.dataError sd.topError) "Unknown error"),
          1, 0, []⟩
      else
        let rest := waitForCompletionAuxW statusT fetchT (i + 1) fuel
        ⟨rest.result, rest.statusCalls + 1, rest.fetchCalls,
          backoffDelay i :: rest.sleeps⟩

/-- Model of waitForCompletion of the Worker entry point. -/
def waitForCompletionW {α : Type}
    (statusT : ℕ → Except String (HttpResponse StatusData))
    (fetchT : Except String (HttpResponse α)) (maxAttempts : ℕ := 60) :
    PollOutcomeW α :=
  waitForCompletionAuxW statusT fetchT 0 maxAttempts

/-- Character-level model of JavaScript String.prototype.split with a
single-character separator: split "a_b" on '_' is ["a","b"], split "" is
[""], split "a_" is ["a",""]. -/
def splitOnChar (sep : Char) : List Char → List (List Char)
  | [] => [[]]
  | c :: cs =>
    let rest := splitOnChar sep cs
    if c = sep then [] :: rest
    else (c :: rest.headD []) :: rest.tail

/-- Character-level model of Array.prototype.join with a
single-character separator. -/
def joinChar (sep : Char) : List (List Char) → List Char
  | [] => []
  | [x] => x
  | x :: y :: rest => x ++ sep :: joinChar sep (y :: rest)

/-- Character-level model of String.prototype.startsWith. -/
def strStartsWith : List Char → List Char → Bool
  | _, [] => true
  | [], _ :: _ => false
  | c :: cs, p :: ps => if c = p then strStartsWith cs ps else false

/-- Category-abbreviation expansion of the invocation router: image,
video and audio expand to imagegen, videogen and audiogen; every other
category passes through unchanged. -/
def expandCategory (c : String) : String :=
  if c = "image" then "imagegen"
  else if c = "video" then "videogen"
  else if c = "audio" then "audiogen"
  else c

/-- Tool naming rule of the registry builders in both entry points:
the template generate_<category>_<subcategory>. -/
def buildToolName (category subcategory : String) : String :=
  "generate_" ++ category ++ "_" ++ subcategory

/-- Tool-name parse of the CallToolRequestSchema handler: guard on
name.startsWith("generate_"); strip the prefix (the source uses
name.replace, which removes the first occurrence of the pattern — under
the startsWith guard that occurrence is the leading prefix, so the model
drops its length); split the remainder on underscores; the category is
the first part with the abbreviation expansion applied, the subcategory
is the remaining parts rejoined with underscores.  Returns none exactly
when the handler would throw the Unknown tool error. -/
def parseGenerateName (name : String) : Option (String × String) :=
  let pre := "generate_".data
  if strStartsWith name.data pre then
    let parts := splitOnChar '_' (name.data.drop pre.length)
    some (expandCategory (parts.headD []).asString,
          (joinChar '_' parts.tail).asString)
  else none

/-- Argument normalization of the CallToolRequestSchema handler, after
the tool name was parsed: unwrap a nested parameters object once; let a
non-empty string model field override an empty parsed subcategory and
drop it from the parameters; delete the reserved fields category_genvr
and subcategory_genvr; finally unwrap a still-nested parameters object
once more.  Returns the final flattened parameters and the final
subcategory. -/
def normalizeParams (toolArgs : JObj) (subFromName : String) : JObj × String :=
  let parameters :=
    match getKey toolArgs "parameters" with
    | some (JVal.obj p) => p
    | _ => toolArgs
  let step2 :=
    match getKey parameters "model" with
    | some (JVal.str s) =>
      if s ≠ "" ∧ subFromName = "" then (eraseKey parameters "model", s)
      else (parameters, subFromName)
    | _ => (parameters, subFromName)
  let parameters2 := eraseKey (eraseKey step2.1 "category_genvr") "subcategory_genvr"
  let flatParams :=
    match getKey parameters2 "parameters" with
    | some (JVal.obj p) => p
    | _ => parameters2
  (flatParams, step2.2)

/-- Submission body forwarded to the /generate endpoint by the
CallToolRequestSchema handler: category and subcategory with the
flattened parameters spread on top. -/
def generateBody (category subcategory : String) (flatParams : JObj) : JObj :=
  spreadObj [("category", JVal.str category), ("subcategory", JVal.str subcategory)]
    flatParams

/-- Raw per-model schema property as stored in the schema cache, with
exactly the fields the translators read.  Absent JSON fields are none. -/
structure RawProp where
  type : Option String
  description : Option String
  enum : Option JVal
  default : Option JVal
  minimum : Option ℚ
  maximum : Option ℚ
  maxItems : Option ℚ
  items : Option JVal
  display : Option String

/-- Translated property definition produced by generateTools of the
standalone entry point. -/
structure PropDef where
  type : String
  description : String
  enum : Option JVal
  default : Option JVal
  minimum : Option ℚ
  maximum : Option ℚ
  maxItems : Option ℚ
  items : Option JVal

/-- Reserved GenVR internal parameter names that generateTools never
exposes. -/
def reservedKeys : List String :=
  ["category_genvr", "subcategory_genvr", "uid", "token"]

/-- Per-property translation loop of generateTools in the standalone
entry point: walk the raw properties in order; skip a property whose
display is the exact string hidden, and skip the reserved internal keys;
otherwise emit a property definition (type defaulting to string,
description defaulting to a synthesized one, enum only when it is an
array, default / minimum / maximum / maxItems carried when defined,
items carried for truthy items on array-typed properties) and record the
key as required when the raw required list includes it. -/
def translateProps (reqList : Option (List String)) :
    List (String × RawProp) → List (String × PropDef) × List String
  | [] => ([], [])
  | (key, prop) :: rest =>
    let tailRes := translateProps reqList rest
    if prop.display = some "hidden" then tailRes
    else if key = "category_genvr" ∨ key = "subcategory_genvr" ∨
        key = "uid" ∨ key = "token" then tailRes
    else
      let pd : PropDef :=
        { type := jsStrD prop.type "string"
          description := jsStrD prop.description ("Parameter: " ++ key)
          enum :=
            match prop.enum with
            | some (JVal.arr l) => some (JVal.arr l)
            | _ => none
          default := prop.default
          minimum := prop.minimum
          maximum := prop.maximum
          maxItems := prop.maxItems
          items :=
            match prop.items with
            | some v =>
              if prop.type = some "array" ∧ jsTruthy v then some v else none
            | none => none }
      ((key, pd) :: tailRes.1,
        if jsIncludes reqList key then key :: tailRes.2 else tailRes.2)

/-- JSON-schema object emitted per tool by generateTools. -/
structure InputSchema where
  type : String
  properties : List (String × PropDef)
  required : List String

/-- Raw schema object under the schema key of the cache used by the
standalone entry point: cachedSchema.schema. -/
structure RawSchema where
  properties : Option (List (String × RawProp))
  required : Option (List String)

/-- Cache entry of the standalone entry point: cachedSchema. -/
structure CachedSchema where
  schema : Option RawSchema
  description : Option String

/-- One catalog entry: a model descriptor with its category, subcategory,
display name and optional description. -/
structure ModelDescriptor where
  category : String
  subcategory : String
  name : String
  description : Option String

/-- One exposed tool definition of the standalone entry point. -/
structure ToolDefinition where
  name : String
  description : String
  inputSchema : InputSchema

/-- Input schema used when no cached schema is available: an empty
object schema. -/
def emptyInputSchema : InputSchema :=
  { type := "object", properties := [], required := [] }

/-- Model of generateTools of the standalone entry point: one tool per
model, in catalog order; the tool name follows the naming rule; the
description composes the model name, category, subcategory and the first
truthy description; the input schema is translated from the cached
schema when the cache entry, its schema and its properties are all
present, and is the empty object schema otherwise. -/
def generateTools (models : List ModelDescriptor)
    (cache : String → Option CachedSchema) : List ToolDefinition :=
  models.map (fun m =>
    let cachedSchema := cache (m.category ++ "/" ++ m.subcategory)
    let inputSchema :=
      match cachedSchema with
      | some cs =>
        match cs.schema with
        | some s =>
          match s.properties with
          | some props =>
            let t := translateProps s.required props
            { type := "object", properties := t.1, required := t.2 }
          | none => emptyInputSchema
        | none => emptyInputSchema
      | none => emptyInputSchema
    { name := buildToolName m.category m.subcategory
      description :=
        "Generate content using " ++ m.name ++ ". Category: " ++ m.category ++
        ", Model: " ++ m.subcategory ++ ". " ++
        jsStrD (jsOrStr m.description (cachedSchema.bind CachedSchema.description)) ""
      inputSchema := inputSchema })

/-- Kind of zod validator built by the Worker entry point for one
property: z.string(), z.number(), z.boolean(), z.array(z.any()) or
z.any(). -/
inductive ZodKind where
  | string
  | number
  | boolean
  | arrayAny
  | anyType

/-- One zod field of the Worker tool input schema: the validator kind
and the describe text. -/
structure ZodField where
  kind : ZodKind
  description : String

/-- Validator kind chosen by the Worker entry point from the raw
property type (exact string comparisons, anything else gets z.any()). -/
def workerZodKind (t : Option String) : ZodKind :=
  if t = some "string" then .string
  else if t = some "number" then .number
  else if t = some "boolean" then .boolean
  else if t = some "array" then .arrayAny
  else .anyType

/-- Per-property conversion of the Worker entry point: the validator
kind from the type, described with property.description or the empty
string.  No property is ever skipped. -/
def workerZodField (prop : RawProp) : ZodField :=
  ⟨workerZodKind prop.type, jsStrD prop.description ""⟩

/-- Fallback input schema of the Worker entry point, used when no cached
schema with properties exists for the model. -/
def workerFallbackSchema : List (String × ZodField) :=
  [("prompt", ⟨.string, "The input prompt or description for the AI model"⟩),
   ("userId", ⟨.string, "GenVR User ID"⟩),
   ("accessToken", ⟨.string, "GenVR Access Token"⟩)]

/-- Schema conversion of the Worker entry point (MyMCP.init): when the
cached schema and its properties exist, every raw property is converted
in order — hidden and reserved properties included; otherwise the
fallback schema is used. -/
def workerInputSchema (schemaProps : Option (List (String × RawProp))) :
    List (String × ZodField) :=
  match schemaProps with
  | some props => props.map (fun kp => (kp.1, workerZodField kp.2))
  | none => workerFallbackSchema

/-- Field of a /generate response payload the handlers read:
generateData?.data?.id (undefined when the response, its data object or
the id is missing). -/
structure GenData where
  dataId : Option String

/-- Message of the error thrown by callGenVRAPI for a transport failure:
the GenVR API error string for a non-ok response, or the propagated
fetch rejection message. -/
def remoteErrMsg : RemoteErr → String
  | .httpError status statusText bodyText =>
    "GenVR API error: " ++ toString status ++ " " ++ statusText ++ " - " ++ bodyText
  | .networkError msg => msg

/-- Message of the error a standalone poller outcome raises, as caught
by the CallToolRequestSchema handler. -/
def pollErrMsg : PollErr → String
  | .remote e => remoteErrMsg e
  | .taskFailed msg => msg
  | .timedOut => "Task timed out"

/-- One content entry of a tool result at the dispatch boundary. -/
structure ToolContent where
  type : String
  text : String

/-- Tool result shape at the dispatch boundary (structuredContent, which
no claim reads, is omitted; a missing isError reads as false). -/
structure ToolResult where
  content : List ToolContent
  isError : Bool

/-- Body of the try block of the CallToolRequestSchema handler of the
standalone entry point: validate the argument object (JavaScript also
admits arrays here; the model covers object arguments), parse the tool
name, normalize the arguments, submit the generate request, extract the
task id (throwing when it is undefined or empty), and run the poller,
mapping every raised error to its message. -/
def callToolRun {α : Type} (name : String) (args : Option JVal)
    (genT : JObj → Except String (HttpResponse GenData))
    (statusT : ℕ → Except String (HttpResponse StatusData))
    (fetchT : Except String (HttpResponse α)) : Except String α :=
  match args with
  | some (JVal.obj toolArgs) =>
    match parseGenerateName name with
    | none => .error ("Unknown tool: " ++ name)
    | some cs =>
      let np := normalizeParams toolArgs cs.2
      let requestBody := generateBody cs.1 np.2 np.1
      match callGenVRAPI (genT requestBody) with
      | .error e => .error (remoteErrMsg e)
      | .ok gd =>
        match gd.dataId with
        | some taskId =>
          if taskId = "" then .error "No task ID returned from generate endpoint"
          else
            match (waitForCompletion statusT fetchT 60).result with
            | .error pe => .error (pollErrMsg pe)
            | .ok p => .ok p
        | none => .error "No task ID returned from generate endpoint"
  | _ => .error "No arguments provided"

/-- CallToolRequestSchema handler of the standalone entry point: the
try block on success returns one text content entry with the serialized
result (serialization of the opaque payload is a parameter), and the
catch block converts any raised error into a tool result with isError
true and one text entry prefixed Error. -/
def handleCallTool {α : Type} (stringify : α → String) (name : String)
    (args : Option JVal) (genT : JObj → Except String (HttpResponse GenData))
    (statusT : ℕ → Except String (HttpResponse StatusData))
    (fetchT : Except String (HttpResponse α)) : ToolResult :=
  match callToolRun name args genT statusT fetchT with
  | .ok result => ⟨[⟨"text", stringify result⟩], false⟩
  | .error msg => ⟨[⟨"text", "Error: " ++ msg⟩], true⟩

/-- Body of the try block of a registered tool handler in the Worker
entry point (MyMCP.init): build the request body by spreading the
arguments over category and subcategory, submit it, read
generateData?.data?.id (the helper returned null on failure, making the
id undefined), throw when the id is falsy, then run the Worker poller. -/
def workerToolRun {α : Type} (category subcategory : String) (args : JObj)
    (genT : JObj → Except String (HttpResponse GenData))
    (statusT : ℕ → Except String (HttpResponse StatusData))
    (fetchT : Except String (HttpResponse α)) : Except String (Option α) :=
  let requestBody :=
    spreadObj [("category", JVal.str category), ("subcategory", JVal.str subcategory)]
      args
  match (makeGenVRRequest (genT requestBody)).bind GenData.dataId with
  | some taskId =>
    if taskId = "" then .error "No task ID returned from generate endpoint"
    else
      match (waitForCompletionW statusT fetchT 60).result with
      | .error msg => .error msg
      | .ok p => .ok p
  | none => .error "No task ID returned from generate endpoint"

/-- Registered tool handler of the Worker entry point: on success one
text content entry carrying the serialized result, and on any caught
error a tool result with isError true and one text entry prefixed
Tool execution failed. -/
def handleCallToolW {α : Type} (stringify : Option α → String)
    (category subcategory : String) (args : JObj)
    (genT : JObj → Except String (HttpResponse GenData))
    (statusT : ℕ → Except String (HttpResponse StatusData))
    (fetchT : Except String (HttpResponse α)) : ToolResult :=
  match workerToolRun category subcategory args genT statusT fetchT with
  | .ok r => ⟨[⟨"text", stringify r⟩], false⟩
  | .error msg => ⟨[⟨"text", "Tool execution failed: " ++ msg⟩], true⟩

/-- GenVR API base URL. -/
def genvrApiBase : String := "https://api.genvrresearch.com/api/v1"

/-- Outbound HTTP request as assembled by makeGenVRRequest of the Worker
entry point: URL, method, Authorization header value, and the JSON body
it stringifies. -/
structure HttpRequest where
  url : String
  method : String
  authorization : String
  body : JObj

/-- Request-construction half of makeGenVRRequest of the Worker entry
point: POST (the body object is always truthy) to the base URL plus the
endpoint, with a bearer Authorization header and a JSON body made of the
given body with the uid field written on top of it. -/
def makeGenVRRequestSent (endpoint : String) (body : JObj)
    (userId accessToken : String) : HttpRequest :=
  { url := genvrApiBase ++ endpoint
    method := "POST"
    authorization := "Bearer " ++ accessToken
    body := insertKey body "uid" (JVal.str userId) }

/-- Generate request sent by a Worker tool handler: the request body
spreads the raw arguments over category and subcategory, and the
credentials passed to makeGenVRRequest are args.userId and
args.accessToken (supplied here as the strings those fields hold). -/
def workerGenerateRequest (category subcategory : String) (args : JObj)
    (userId accessToken : String) : HttpRequest :=
  makeGenVRRequestSent "/generate"
    (spreadObj [("category", JVal.str category), ("subcategory", JVal.str subcategory)]
      args)
    userId accessToken

/-- Decides whether a /status transport outcome reads as non-terminal to
the standalone poller: the request succeeded and the status it carries
is neither completed nor failed. -/
def nonTerminalResp (r : Except String (HttpResponse StatusData)) : Bool :=
  match callGenVRAPI r with
  | .ok sd => jsStatus sd != some "completed" && jsStatus sd != some "failed"
  | .error _ => false

/-- Decides whether a /status transport outcome reads as non-terminal to
the Worker poller. -/
def nonTerminalRespW (r : Except String (HttpResponse StatusData)) : Bool :=
  match makeGenVRRequest r with
  | some sd => jsStatus sd != some "completed" && jsStatus sd != some "failed"
  | none => false

/-- Status payload reporting pending. -/
def pendingStatus : StatusData := ⟨some "pending", none, none, none⟩

/-- Status payload reporting completed. -/
def completedStatus : StatusData := ⟨some "completed", none, none, none⟩

/-- Status payload reporting failed with an upstream error detail. -/
def failedStatusDetail : StatusData := ⟨some "failed", none, some "GPU quota exceeded", none⟩

/-- Successful transport outcome carrying a payload. -/
def okTransport {α : Type} (a : α) : Except String (HttpResponse α) :=
  .ok ⟨true, 200, "OK", "", a⟩

/-- Status oracle for the scenario pending, pending, completed. -/
def ppcStatusT : ℕ → Except String (HttpResponse StatusData) :=
  fun i => okTransport (if i < 2 then pendingStatus else completedStatus)

/-- Status oracle answering pending forever. -/
def allPendingT : ℕ → Except String (HttpResponse StatusData) :=
  fun _ => okTransport pendingStatus

/-- Status oracle answering completed immediately. -/
def completedT : ℕ → Except String (HttpResponse StatusData) :=
  fun _ => okTransport completedStatus

/-- Status oracle answering failed immediately. -/
def failedT : ℕ → Except String (HttpResponse StatusData) :=
  fun _ => okTransport failedStatusDetail

/-- Successful /response transport outcome with an opaque payload. -/
def fetchOkT : Except String (HttpResponse String) := okTransport "RESULT"

/-- Transport outcome of a /response call answered with HTTP 500. -/
def fetch500T : Except String (HttpResponse String) :=
  .ok ⟨false, 500, "Internal Server Error", "upstream exploded", "unused"⟩

/-- Transport outcome of a /status call answered with HTTP 502. -/
def status502 : Except String (HttpResponse StatusData) :=
  .ok ⟨false, 502, "Bad Gateway", "bad upstream", pendingStatus⟩

/-- Doubly nested call arguments carrying a reserved internal field in
the innermost parameter object. -/
def doubleNestedArgs : JObj :=
  [("parameters", JVal.obj
    [("parameters", JVal.obj
      [("prompt", JVal.str "a cat"), ("category_genvr", JVal.str "evil")])])]

/-- Singly nested call arguments carrying the same reserved internal
field. -/
def singleNestedArgs : JObj :=
  [("parameters", JVal.obj
    [("prompt", JVal.str "a cat"), ("category_genvr", JVal.str "evil")])]

/-- Raw property marked display hidden. -/
def hiddenRawProp : RawProp :=
  { type := some "string", description := some "internal seed",
    enum := none, default := none, minimum := none, maximum := none,
    maxItems := none, items := none, display := some "hidden" }

/-- Raw property under the reserved key uid. -/
def uidRawProp : RawProp :=
  { type := some "string", description := none,
    enum := none, default := none, minimum := none, maximum := none,
    maxItems := none, items := none, display := none }

/-- Ordinary visible raw property. -/
def promptRawProp : RawProp :=
  { type := some "string", description := some "The prompt",
    enum := none, default := none, minimum := none, maximum := none,
    maxItems := none, items := none, display := none }

/-- Raw schema properties holding one hidden field, one reserved field
and one ordinary field. -/
def mixedRawProps : List (String × RawProp) :=
  [("secret_seed", hiddenRawProp), ("uid", uidRawProp), ("prompt", promptRawProp)]

/-- One-entry catalog used to instantiate the registry builder. -/
def sampleModels : List ModelDescriptor :=
  [{ category := "imagegen", subcategory := "flux_dev",
     name := "imagegen/flux_dev", description := some "Flux dev model" }]

/-- Schema cache with no entries. -/
def emptyCache : String → Option CachedSchema := fun _ => none

/-- Call arguments carrying credentials next to the prompt. -/
def credArgs : JObj :=
  [("prompt", JVal.str "a cat"), ("userId", JVal.str "user-1"),
   ("accessToken", JVal.str "tok-9")]

theorem strStartsWith_append (pat rest : List Char) :
    strStartsWith (pat ++ rest) pat = true := by
  induction pat with
  | nil => simp [strStartsWith]
  | cons p ps ih => simp [strStartsWith, ih]

theorem splitOnChar_ne_nil (sep : Char) (l : List Char) :
    splitOnChar sep l ≠ [] := by
  cases l with
  | nil => simp [splitOnChar]
  | cons c cs =>
    simp only [splitOnChar]
    split <;> simp

theorem splitOnChar_append_sep (sep : Char) (a b : List Char) (h : sep ∉ a) :
    splitOnChar sep (a ++ sep :: b) = a :: splitOnChar sep b := by
  induction a with
  | nil => simp [splitOnChar]
  | cons c cs ih =>
    simp only [List.mem_cons, not_or] at h
    have hc : ¬(c = sep) := fun he => h.1 he.symm
    simp only [List.cons_append, splitOnChar, if_neg hc]
    simp [ih h.2]

theorem joinChar_splitOnChar (sep : Char) (l : List Char) :
    joinChar sep (splitOnChar sep l) = l := by
  induction l with
  | nil => rfl
  | cons c cs ih =>
    rcases hs : splitOnChar sep cs with _ | ⟨r, rs⟩
    · exact absurd hs (splitOnChar_ne_nil sep cs)
    · rw [hs] at ih
      by_cases hc : c = sep
      · subst hc
        simp only [splitOnChar, hs, if_pos rfl, joinChar]
        cases rs <;> simp_all [joinChar]
      · simp only [splitOnChar, hs, if_neg hc]
        cases rs with
        | nil => simp_all [joinChar]
        | cons s ss =>
          simp only [List.headD, List.tail_cons, joinChar] at ih ⊢
          simp [← ih]

theorem getKey_eq_none {β : Type} (l : List (String × β)) (key : String)
    (h : key ∉ l.map Prod.fst) : getKey l key = none := by
  induction l with
  | nil => rfl
  | cons kv rest ih =>
    obtain ⟨k, v⟩ := kv
    simp only [List.map_cons, List.mem_cons, not_or] at h
    simp [getKey, Ne.symm h.1, ih h.2]

theorem getKey_insertKey_self {β : Type} (o : List (String × β)) (k : String) (v : β) :
    getKey (insertKey o k v) k = some v := by
  induction o with
  | nil => simp [insertKey, getKey]
  | cons kv rest ih =>
    obtain ⟨k0, v0⟩ := kv
    by_cases hk : k0 = k
    · simp [insertKey, hk, getKey]
    · simp [insertKey, hk, getKey, ih]

theorem getKey_insertKey_ne {β : Type} (o : List (String × β)) (k : String) (v : β)
    (key : String) (h : key ≠ k) :
    getKey (insertKey o k v) key = getKey o key := by
  induction o with
  | nil => simp [insertKey, getKey, Ne.symm h]
  | cons kv rest ih =>
    obtain ⟨k0, v0⟩ := kv
    by_cases hk : k0 = k
    · subst hk
      simp [insertKey, getKey, Ne.symm h]
    · simp [insertKey, hk, getKey, ih]

theorem getKey_spreadObj {β : Type} (a b : List (String × β)) (key : String)
    (hb : (b.map Prod.fst).Nodup) :
    getKey (spreadObj a b) key = (getKey b key).or (getKey a key) := by
  induction b generalizing a with
  | nil => simp [spreadObj, getKey, Option.or]
  | cons kv rest ih =>
    obtain ⟨k0, v0⟩ := kv
    simp only [List.map_cons, List.nodup_cons] at hb
    have hstep : spreadObj a ((k0, v0) :: rest) = spreadObj (insertKey a k0 v0) rest := rfl
    rw [hstep, ih (insertKey a k0 v0) hb.2]
    by_cases hk : key = k0
    · subst hk
      have hnone : getKey rest key = none :=
        getKey_eq_none rest key hb.1
      simp [getKey, hnone, getKey_insertKey_self, Option.or]
    · simp [getKey, Ne.symm hk, getKey_insertKey_ne a k0 v0 key hk]

theorem mem_translateProps_keys (reqList : Option (List String))
    (props : List (String × RawProp)) (key : String)
    (h : key ∈ (translateProps reqList props).1.map Prod.fst) :
    key ∈ props.map Prod.fst := by
  induction props with
  | nil => simp [translateProps] at h
  | cons kp rest ih =>
    obtain ⟨k0, p0⟩ := kp
    simp only [translateProps] at h
    by_cases h1 : p0.display = some "hidden"
    · rw [if_pos h1] at h
      exact List.mem_cons_of_mem _ (ih h)
    · rw [if_neg h1] at h
      by_cases h2 : k0 = "category_genvr" ∨ k0 = "subcategory_genvr" ∨
          k0 = "uid" ∨ k0 = "token"
      · rw [if_pos h2] at h
        exact List.mem_cons_of_mem _ (ih h)
      · rw [if_neg h2] at h
        simp only [List.map_cons, List.mem_cons] at h ⊢
        rcases h with h | h
        · exact Or.inl h
        · exact Or.inr (ih h)

theorem waitForCompletionAux_timeout {α : Type}
    (statusT : ℕ → Except String (HttpResponse StatusData))
    (fetchT : Except String (HttpResponse α)) (fuel : ℕ) :
    ∀ i : ℕ, (∀ j, j < fuel → nonTerminalResp (statusT (i + j)) = true) →
    (waitForCompletionAux statusT fetchT i fuel).result = .error .timedOut ∧
    (waitForCompletionAux statusT fetchT i fuel).fetchCalls = 0 := by
  induction fuel with
  | zero => exact fun i _ => ⟨rfl, rfl⟩
  | succ n ih =>
    intro i h
    have h0 := h 0 (Nat.succ_pos n)
    rw [Nat.add_zero] at h0
    rcases hc : callGenVRAPI (statusT i) with e | sd
    · simp [nonTerminalResp, hc] at h0
    · simp only [nonTerminalResp, hc, Bool.and_eq_true, bne_iff_ne, ne_eq] at h0
      simp only [waitForCompletionAux, hc, if_neg h0.1, if_neg h0.2]
      exact ih (i + 1) (fun j hj => by
        have hidx : i + 1 + j = i + (j + 1) := by omega
        rw [hidx]
        exact h (j + 1) (Nat.succ_lt_succ hj))

theorem waitForCompletionAuxW_timeout {α : Type}
    (statusT : ℕ → Except String (HttpResponse StatusData))
    (fetchT : Except String (HttpResponse α)) (fuel : ℕ) :
    ∀ i : ℕ, (∀ j, j < fuel → nonTerminalRespW (statusT (i + j)) = true) →
    (waitForCompletionAuxW statusT fetchT i fuel).result = .error "Task timed out" ∧
    (waitForCompletionAuxW statusT fetchT i fuel).fetchCalls = 0 := by
  induction fuel with
  | zero => exact fun i _ => ⟨rfl, rfl⟩
  | succ n ih =>
    intro i h
    have h0 := h 0 (Nat.succ_pos n)
    rw [Nat.add_zero] at h0
    rcases hc : makeGenVRRequest (statusT i) with _ | sd
    · simp [nonTerminalRespW, hc] at h0
    · simp only [nonTerminalRespW, hc, Bool.and_eq_true, bne_iff_ne, ne_eq] at h0
      simp only [waitForCompletionAuxW, hc, if_neg h0.1, if_neg h0.2]
      exact ih (i + 1) (fun j hj => by
        have hidx : i + 1 + j = i + (j + 1) := by omega
        rw [hidx]
        exact h (j + 1) (Nat.succ_lt_succ hj))

theorem backoffDelay_zero : backoffDelay 0 = 2000 := by
  norm_num [backoffDelay, jsMin]

theorem backoffDelay_one : backoffDelay 1 = 3000 := by
  norm_num [backoffDelay, jsMin]

/-- C1: for every catalog entry the registry builders emit exactly one
tool named generate_<category>_<subcategory> (one tool per model, in
catalog order), and the router's parse reconstructs the original pair
whenever the category contains no underscore and is not one of the short
forms image, video, audio (on those the expansion rewrites the parsed
category, see the counterexample). -/
theorem toolname_roundtrip_amended :
    (∀ (models : List ModelDescriptor) (cache : String → Option CachedSchema),
      (generateTools models cache).map ToolDefinition.name =
        models.map (fun m => buildToolName m.category m.subcategory))
    ∧ (∀ cat sub : String, '_' ∉ cat.data →
        cat ≠ "image" → cat ≠ "video" → cat ≠ "audio" →
        parseGenerateName (buildToolName cat sub) = some (cat, sub)) := by
  constructor
  · intro models cache
    simp only [generateTools, List.map_map]
    rfl
  · intro cat sub h1 h2 h3 h4
    have hdata : (buildToolName cat sub).data =
        "generate_".data ++ (cat.data ++ '_' :: sub.data) := by
      simp [buildToolName, String.data_append, List.append_assoc]
    have hcat : (cat.data).asString = cat := rfl
    have hsub : (sub.data).asString = sub := rfl
    simp only [parseGenerateName, hdata, strStartsWith_append, if_true,
      List.drop_left, splitOnChar_append_sep '_' cat.data sub.data h1,
      List.headD_cons, List.tail_cons, joinChar_splitOnChar, hcat, hsub,
      expandCategory, if_neg h2, if_neg h3, if_neg h4]

/-- C1 counterexample: the round trip fails as stated on a catalog entry
with the short-form category image — the built name generate_image_flux
parses to (imagegen, flux), not back to (image, flux), because the
abbreviation expansion rewrites the category. -/
theorem toolname_roundtrip_cex_short_category :
    parseGenerateName (buildToolName "image" "flux") = some ("imagegen", "flux") ∧
    parseGenerateName (buildToolName "image" "flux") ≠ some ("image", "flux") := by
  exact ⟨by decide, by decide⟩

/-- C1 witness: the amended round trip at a concrete one-entry catalog
and a concrete canonical category. -/
theorem toolname_roundtrip_amended_witness :
    (generateTools sampleModels emptyCache).map ToolDefinition.name =
      ["generate_imagegen_flux_dev"] ∧
    parseGenerateName (buildToolName "imagegen" "flux_dev") =
      some ("imagegen", "flux_dev") := by
  constructor
  · rw [toolname_roundtrip_amended.1 sampleModels emptyCache]
    decide
  · exact toolname_roundtrip_amended.2 "imagegen" "flux_dev"
      (by decide) (by decide) (by decide) (by decide)

/-- C2 counterexample: the Worker poller does not raise a
RemoteRequestError carrying HTTP status and body on transport failures.
With the first status check answering completed and the /response call
answered with HTTP 500, the poller returns a successful null result and
raises nothing; with the /status call answered with HTTP 502, it raises
only the generic Failed to get status message, carrying neither the
status code nor the response body. -/
theorem worker_transport_failure_not_remote_error :
    (waitForCompletionW completedT fetch500T 60).result = .ok none ∧
    (waitForCompletionW completedT fetch500T 60).sleeps = [] ∧
    (waitForCompletionW (fun _ => status502) fetchOkT 60).result =
      .error "Failed to get status" := by
  exact ⟨rfl, rfl, rfl⟩

/-- C2 amended: in the standalone poller a transport-level failure of
the status or fetch-result request propagates immediately as the raised
remote error — one status call, no sleep, no further attempt regardless
of remaining attempts — and a non-ok response produces the error
carrying the HTTP status and response body; the Worker poller instead
raises the generic Failed to get status message (without status or body)
immediately on a status transport failure, and on a fetch-result
transport failure raises nothing and returns a null result. -/
theorem transport_failure_propagation_amended :
    (∀ (α : Type) (statusT : ℕ → Except String (HttpResponse StatusData))
      (fetchT : Except String (HttpResponse α)) (i fuel : ℕ) (e : RemoteErr),
      0 < fuel → callGenVRAPI (statusT i) = .error e →
      waitForCompletionAux statusT fetchT i fuel = ⟨.error (.remote e), 1, 0, []⟩)
    ∧ (∀ (α : Type) (statusT : ℕ → Except String (HttpResponse StatusData))
      (fetchT : Except String (HttpResponse α)) (i fuel : ℕ) (sd : StatusData)
      (e : RemoteErr),
      0 < fuel → callGenVRAPI (statusT i) = .ok sd →
      jsStatus sd = some "completed" → callGenVRAPI fetchT = .error e →
      waitForCompletionAux statusT fetchT i fuel = ⟨.error (.remote e), 1, 1, []⟩)
    ∧ (∀ (α : Type) (resp : HttpResponse α), resp.ok = false →
      callGenVRAPI (.ok resp) =
        .error (.httpError resp.status resp.statusText resp.bodyText))
    ∧ (∀ (α : Type) (statusT : ℕ → Except String (HttpResponse StatusData))
      (fetchT : Except String (HttpResponse α)) (i fuel : ℕ),
      0 < fuel → makeGenVRRequest (statusT i) = none →
      waitForCompletionAuxW statusT fetchT i fuel =
        ⟨.error "Failed to get status", 1, 0, []⟩)
    ∧ (∀ (α : Type) (statusT : ℕ → Except String (HttpResponse StatusData))
      (fetchT : Except String (HttpResponse α)) (i fuel : ℕ) (sd : StatusData),
      0 < fuel → makeGenVRRequest (statusT i) = some sd →
      jsStatus sd = some "completed" → makeGenVRRequest fetchT = none →
      waitForCompletionAuxW statusT fetchT i fuel = ⟨.ok none, 1, 1, []⟩) := by
  refine ⟨?_, ?_, ?_, ?_, ?_⟩
  · intro α statusT fetchT i fuel e hf hc
    cases fuel with
    | zero => omega
    | succ n => simp [waitForCompletionAux, hc]
  · intro α statusT fetchT i fuel sd e hf hc hs hfe
    cases fuel with
    | zero => omega
    | succ n => simp [waitForCompletionAux, hc, hs, hfe]
  · intro α resp h
    simp [callGenVRAPI, h]
  · intro α statusT fetchT i fuel hf hc
    cases fuel with
    | zero => omega
    | succ n => simp [waitForCompletionAuxW, hc]
  · intro α statusT fetchT i fuel sd hf hc hs hfe
    cases fuel with
    | zero => omega
    | succ n => simp [waitForCompletionAuxW, hc, hs, hfe]

/-- C2 witness: the amended statement instantiated on concrete
transports — a 502 status response, a network error on the status call,
and the Worker cases of the counterexample scenario. -/
theorem transport_failure_propagation_amended_witness :
    waitForCompletionAux (fun _ => status502) fetchOkT 0 60 =
      ⟨.error (.remote (.httpError 502 "Bad Gateway" "bad upstream")), 1, 0, []⟩ ∧
    waitForCompletionAux completedT fetch500T 0 60 =
      ⟨.error (.remote (.httpError 500 "Internal Server Error" "upstream exploded")),
        1, 1, []⟩ ∧
    callGenVRAPI (α := String) (.ok ⟨false, 502, "Bad Gateway", "bad upstream", "x"⟩) =
      .error (.httpError 502 "Bad Gateway" "bad upstream") ∧
    waitForCompletionAuxW (fun _ => status502) fetchOkT 0 60 =
      ⟨.error "Failed to get status", 1, 0, []⟩ ∧
    waitForCompletionAuxW completedT fetch500T 0 60 = ⟨.ok none, 1, 1, []⟩ := by
  refine ⟨?_, ?_, ?_, ?_, ?_⟩
  · exact transport_failure_propagation_amended.1 String (fun _ => status502)
      fetchOkT 0 60 _ (by omega) rfl
  · exact transport_failure_propagation_amended.2.1 String completedT fetch500T 0 60
      completedStatus _ (by omega) rfl rfl rfl
  · exact transport_failure_propagation_amended.2.2.1 String
      ⟨false, 502, "Bad Gateway", "bad upstream", "x"⟩ rfl
  · exact transport_failure_propagation_amended.2.2.2.1 String (fun _ => status502)
      fetchOkT 0 60 (by omega) rfl
  · exact transport_failure_propagation_amended.2.2.2.2 String completedT fetch500T 0 60
      completedStatus (by omega) rfl rfl rfl

/-- C3: in both pollers, every attempt i (0-indexed) that observes a
non-terminal status sleeps exactly Math.min(2000 * 1.5 ^ i, 10000)
milliseconds before the next attempt; in particular the scenario
pending, pending, completed sleeps [2000, 3000] for a total of
2000 + 3000 milliseconds. -/
theorem backoff_delay_schedule :
    (∀ (α : Type) (statusT : ℕ → Except String (HttpResponse StatusData))
      (fetchT : Except String (HttpResponse α)) (i fuel : ℕ) (sd : StatusData),
      callGenVRAPI (statusT i) = .ok sd →
      jsStatus sd ≠ some "completed" → jsStatus sd ≠ some "failed" →
      (waitForCompletionAux statusT fetchT i (fuel + 1)).sleeps =
        jsMin (2000 * (1.5 : ℚ) ^ i) 10000 ::
          (waitForCompletionAux statusT fetchT (i + 1) fuel).sleeps)
    ∧ (∀ (α : Type) (statusT : ℕ → Except String (HttpResponse StatusData))
      (fetchT : Except String (HttpResponse α)) (i fuel : ℕ) (sd : StatusData),
      makeGenVRRequest (statusT i) = some sd →
      jsStatus sd ≠ some "completed" → jsStatus sd ≠ some "failed" →
      (waitForCompletionAuxW statusT fetchT i (fuel + 1)).sleeps =
        jsMin (2000 * (1.5 : ℚ) ^ i) 10000 ::
          (waitForCompletionAuxW statusT fetchT (i + 1) fuel).sleeps)
    ∧ ((waitForCompletion ppcStatusT fetchOkT 60).sleeps = [2000, 3000] ∧
      (waitForCompletion ppcStatusT fetchOkT 60).sleeps.sum = 2000 + 3000) := by
  refine ⟨?_, ?_, ?_, ?_⟩
  · intro α statusT fetchT i fuel sd hc h1 h2
    simp [waitForCompletionAux, hc, h1, h2, backoffDelay, jsMin]
  · intro α statusT fetchT i fuel sd hc h1 h2
    simp [waitForCompletionAuxW, hc, h1, h2, backoffDelay, jsMin]
  · have h : (waitForCompletion ppcStatusT fetchOkT 60).sleeps =
        [backoffDelay 0, backoffDelay 1] := rfl
    rw [h, backoffDelay_zero, backoffDelay_one]
  · have h : (waitForCompletion ppcStatusT fetchOkT 60).sleeps =
        [backoffDelay 0, backoffDelay 1] := rfl
    rw [h, backoffDelay_zero, backoffDelay_one]
    norm_num

/-- C3 witness: the per-attempt delay statement at the all-pending
oracle, attempt 0 of the standalone poller and attempt 0 of the Worker
poller. -/
theorem backoff_delay_schedule_witness :
    (waitForCompletionAux allPendingT fetchOkT 0 60).sleeps =
      jsMin (2000 * (1.5 : ℚ) ^ 0) 10000 ::
        (waitForCompletionAux allPendingT fetchOkT 1 59).sleeps ∧
    (waitForCompletionAuxW allPendingT fetchOkT 0 60).sleeps =
      jsMin (2000 * (1.5 : ℚ) ^ 0) 10000 ::
        (waitForCompletionAuxW allPendingT fetchOkT 1 59).sleeps := by
  constructor
  · exact backoff_delay_schedule.1 String allPendingT fetchOkT 0 59 pendingStatus
      rfl (by decide) (by decide)
  · exact backoff_delay_schedule.2.1 String allPendingT fetchOkT 0 59 pendingStatus
      rfl (by decide) (by decide)

/-- C6: in both pollers, an attempt that observes status completed
immediately issues exactly one fetch-result call and returns its payload
as the result, with no further status check and no sleep from that
observation on, regardless of remaining attempts. -/
theorem completed_status_single_fetch :
    (∀ (α : Type) (statusT : ℕ → Except String (HttpResponse StatusData))
      (fetchT : Except String (HttpResponse α)) (i fuel : ℕ) (sd : StatusData) (p : α),
      0 < fuel → callGenVRAPI (statusT i) = .ok sd →
      jsStatus sd = some "completed" → callGenVRAPI fetchT = .ok p →
      waitForCompletionAux statusT fetchT i fuel = ⟨.ok p, 1, 1, []⟩)
    ∧ (∀ (α : Type) (statusT : ℕ → Except String (HttpResponse StatusData))
      (fetchT : Except String (HttpResponse α)) (i fuel : ℕ) (sd : StatusData) (p : α),
      0 < fuel → makeGenVRRequest (statusT i) = some sd →
      jsStatus sd = some "completed" → makeGenVRRequest fetchT = some p →
      waitForCompletionAuxW statusT fetchT i fuel = ⟨.ok (some p), 1, 1, []⟩) := by
  constructor
  · intro α statusT fetchT i fuel sd p hf hc hs hp
    cases fuel with
    | zero => omega
    | succ n => simp [waitForCompletionAux, hc, hs, hp]
  · intro α statusT fetchT i fuel sd p hf hc hs hp
    cases fuel with
    | zero => omega
    | succ n => simp [waitForCompletionAuxW, hc, hs, hp]

/-- C6 witness: a first status check that answers completed makes both
pollers return the fetched payload after exactly one status call and one
fetch call, with no sleep. -/
theorem completed_status_single_fetch_witness :
    waitForCompletionAux completedT fetchOkT 0 60 = ⟨.ok "RESULT", 1, 1, []⟩ ∧
    waitForCompletionAuxW completedT fetchOkT 0 60 = ⟨.ok (some "RESULT"), 1, 1, []⟩ := by
  constructor
  · exact completed_status_single_fetch.1 String completedT fetchOkT 0 60
      completedStatus "RESULT" (by omega) rfl rfl rfl
  · exact completed_status_single_fetch.2 String completedT fetchOkT 0 60
      completedStatus "RESULT" (by omega) rfl rfl rfl

/-- C7: in both pollers, an attempt that observes status failed raises
the Task failed error carrying the upstream detail when one is present
and the generic Unknown error text otherwise, issues no fetch-result
call, does not retry and sleeps no further; in particular a failed
status on the first check leaves the whole run with an empty sleep
list. -/
theorem failed_status_raises_taskfailed :
    (∀ (α : Type) (statusT : ℕ → Except String (HttpResponse StatusData))
      (fetchT : Except String (HttpResponse α)) (i fuel : ℕ) (sd : StatusData),
      0 < fuel → callGenVRAPI (statusT i) = .ok sd → jsStatus sd = some "failed" →
      waitForCompletionAux statusT fetchT i fuel =
        ⟨.error (.taskFailed
          ("Task failed: " ++ jsStrD (jsOrStr sd.dataError sd.topError) "Unknown error")),
          1, 0, []⟩)
    ∧ (∀ (α : Type) (statusT : ℕ → Except String (HttpResponse StatusData))
      (fetchT : Except String (HttpResponse α)) (i fuel : ℕ) (sd : StatusData),
      0 < fuel → makeGenVRRequest (statusT i) = some sd → jsStatus sd = some "failed" →
      waitForCompletionAuxW statusT fetchT i fuel =
        ⟨.error
          ("Task failed: " ++ jsStrD (jsOrStr sd.dataError sd.topError) "Unknown error"),
          1, 0, []⟩)
    ∧ (∀ (α : Type) (statusT : ℕ → Except String (HttpResponse StatusData))
      (fetchT : Except String (HttpResponse α)) (sd : StatusData),
      callGenVRAPI (statusT 0) = .ok sd → jsStatus sd = some "failed" →
      (waitForCompletion statusT fetchT 60).sleeps = []) := by
  have h1 : ∀ (α : Type) (statusT : ℕ → Except String (HttpResponse StatusData))
      (fetchT : Except String (HttpResponse α)) (i fuel : ℕ) (sd : StatusData),
      0 < fuel → callGenVRAPI (statusT i) = .ok sd → jsStatus sd = some "failed" →
      waitForCompletionAux statusT fetchT i fuel =
        ⟨.error (.taskFailed
          ("Task failed: " ++ jsStrD (jsOrStr sd.dataError sd.topError) "Unknown error")),
          1, 0, []⟩ := by
    intro α statusT fetchT i fuel sd hf hc hs
    cases fuel with
    | zero => omega
    | succ n => simp [waitForCompletionAux, hc, hs]
  refine ⟨h1, ?_, ?_⟩
  · intro α statusT fetchT i fuel sd hf hc hs
    cases fuel with
    | zero => omega
    | succ n => simp [waitForCompletionAuxW, hc, hs]
  · intro α statusT fetchT sd hc hs
    rw [waitForCompletion, h1 α statusT fetchT 0 60 sd (by omega) hc hs]

/-- C7 witness: a failed status with an upstream detail on the first
check raises Task failed with that detail, no fetch call and zero
sleep, in both pollers. -/
theorem failed_status_raises_taskfailed_witness :
    waitForCompletionAux failedT fetchOkT 0 60 =
      ⟨.error (.taskFailed "Task failed: GPU quota exceeded"), 1, 0, []⟩ ∧
    waitForCompletionAuxW failedT fetchOkT 0 60 =
      ⟨.error "Task failed: GPU quota exceeded", 1, 0, []⟩ ∧
    (waitForCompletion failedT fetchOkT 60).sleeps = [] := by
  refine ⟨?_, ?_, ?_⟩
  · have h := failed_status_raises_taskfailed.1 String failedT fetchOkT 0 60
      failedStatusDetail (by omega) rfl rfl
    exact h.trans (by rfl)
  · have h := failed_status_raises_taskfailed.2.1 String failedT fetchOkT 0 60
      failedStatusDetail (by omega) rfl rfl
    exact h.trans (by rfl)
  · exact failed_status_raises_taskfailed.2.2 String failedT fetchOkT
      failedStatusDetail rfl rfl

/-- C8: if 60 consecutive status checks all read as non-terminal, both
pollers raise the task timeout and never issue a fetch-result call. -/
theorem nonterminal_exhaustion_times_out :
    (∀ (α : Type) (statusT : ℕ → Except String (HttpResponse StatusData))
      (fetchT : Except String (HttpResponse α)),
      (∀ j, j < 60 → nonTerminalResp (statusT j) = true) →
      (waitForCompletion statusT fetchT 60).result = .error .timedOut ∧
      (waitForCompletion statusT fetchT 60).fetchCalls = 0)
    ∧ (∀ (α : Type) (statusT : ℕ → Except String (HttpResponse StatusData))
      (fetchT : Except String (HttpResponse α)),
      (∀ j, j < 60 → nonTerminalRespW (statusT j) = true) →
      (waitForCompletionW statusT fetchT 60).result = .error "Task timed out" ∧
      (waitForCompletionW statusT fetchT 60).fetchCalls = 0) := by
  constructor
  · intro α statusT fetchT h
    exact waitForCompletionAux_timeout statusT fetchT 60 0
      (fun j hj => by simpa using h j hj)
  · intro α statusT fetchT h
    exact waitForCompletionAuxW_timeout statusT fetchT 60 0
      (fun j hj => by simpa using h j hj)

/-- C8 witness: sixty pending answers time out with no fetch call in
both pollers. -/
theorem nonterminal_exhaustion_times_out_witness :
    ((waitForCompletion allPendingT fetchOkT 60).result = .error .timedOut ∧
      (waitForCompletion allPendingT fetchOkT 60).fetchCalls = 0) ∧
    ((waitForCompletionW allPendingT fetchOkT 60).result = .error "Task timed out" ∧
      (waitForCompletionW allPendingT fetchOkT 60).fetchCalls = 0) := by
  constructor
  · exact nonterminal_exhaustion_times_out.1 String allPendingT fetchOkT
      (by decide)
  · exact nonterminal_exhaustion_times_out.2 String allPendingT fetchOkT
      (by decide)

/-- C4 counterexample: the Worker entry point's schema conversion does
no filtering — translating a raw schema holding the hidden property
secret_seed (display hidden in hiddenRawProp) and the reserved key
uid keeps both in the exposed contract, so the translated contract does
contain a hidden property and a reserved key. -/
theorem worker_translation_keeps_hidden_and_reserved :
    (workerInputSchema (some mixedRawProps)).map Prod.fst =
      ["secret_seed", "uid", "prompt"] ∧
    hiddenRawProp.display = some "hidden" ∧
    getKey (workerInputSchema (some mixedRawProps)) "uid" =
      some ⟨ZodKind.string, ""⟩ := by
  exact ⟨rfl, rfl, rfl⟩

/-- C4 amended: the standalone translator (generateTools) skips every
property whose display is hidden and every reserved internal key, so
neither ever appears in its translated contract; the Worker entry
point's conversion instead carries every raw property key through
unchanged, hidden and reserved ones included. -/
theorem schema_translation_filtering_amended :
    (∀ (props : List (String × RawProp)) (reqList : Option (List String))
      (key : String) (rp : RawProp),
      (props.map Prod.fst).Nodup → (key, rp) ∈ props →
      rp.display = some "hidden" ∨ key ∈ reservedKeys →
      getKey (translateProps reqList props).1 key = none)
    ∧ (∀ props : List (String × RawProp),
      (workerInputSchema (some props)).map Prod.fst = props.map Prod.fst) := by
  constructor
  · intro props reqList key rp hnd hmem hskip
    induction props with
    | nil => simp at hmem
    | cons kp rest ih =>
      obtain ⟨k0, p0⟩ := kp
      simp only [List.map_cons, List.nodup_cons] at hnd
      rcases List.mem_cons.mp hmem with hhead | hrest
      · have hk : key = k0 := congrArg Prod.fst hhead
        have hp : rp = p0 := congrArg Prod.snd hhead
        subst hk
        subst hp
        have hnone : getKey (translateProps reqList rest).1 key = none := by
          apply getKey_eq_none
          intro hmk
          exact hnd.1 (mem_translateProps_keys reqList rest key hmk)
        simp only [translateProps]
        rcases hskip with hdisp | hres
        · rw [if_pos hdisp]
          exact hnone
        · by_cases h1 : rp.display = some "hidden"
          · rw [if_pos h1]
            exact hnone
          · rw [if_neg h1, if_pos (by simpa [reservedKeys] using hres)]
            exact hnone
      · have hkey : key ∈ rest.map Prod.fst :=
          List.mem_map_of_mem Prod.fst hrest
        have hne : k0 ≠ key := fun he => hnd.1 (he ▸ hkey)
        have htail := ih hnd.2 hrest
        simp only [translateProps]
        by_cases h1 : p0.display = some "hidden"
        · rw [if_pos h1]
          exact htail
        · rw [if_neg h1]
          by_cases h2 : k0 = "category_genvr" ∨ k0 = "subcategory_genvr" ∨
              k0 = "uid" ∨ k0 = "token"
          · rw [if_pos h2]
            exact htail
          · rw [if_neg h2]
            simp only [getKey, if_neg hne]
            exact htail
  · intro props
    induction props with
    | nil => rfl
    | cons kp rest ih =>
      simp only [workerInputSchema, List.map_cons, List.map_map] at ih ⊢
      simp [ih]

/-- C4 witness: the amended statement at the concrete mixed schema — the
standalone translator drops both the hidden property and the reserved
key, while the Worker conversion keeps all three keys. -/
theorem schema_translation_filtering_amended_witness :
    getKey (translateProps (some ["prompt"]) mixedRawProps).1 "secret_seed" = none ∧
    getKey (translateProps (some ["prompt"]) mixedRawProps).1 "uid" = none ∧
    (workerInputSchema (some mixedRawProps)).map Prod.fst =
      mixedRawProps.map Prod.fst := by
  refine ⟨?_, ?_, ?_⟩
  · exact schema_translation_filtering_amended.1 mixedRawProps (some ["prompt"])
      "secret_seed" hiddenRawProp (by decide) (by simp [mixedRawProps])
      (Or.inl rfl)
  · exact schema_translation_filtering_amended.1 mixedRawProps (some ["prompt"])
      "uid" uidRawProp (by decide) (by simp [mixedRawProps]) (Or.inr (by decide))
  · exact schema_translation_filtering_amended.2 mixedRawProps

/-- C5: evaluation of the router at a doubly nested argument object.
Because the handler deletes category_genvr and subcategory_genvr before
its second parameters unwrap, a reserved field nested two levels deep
survives normalization and reaches the /generate submission body, while
the same field one level deep is stripped. -/
theorem reserved_field_survives_double_nesting :
    getKey (normalizeParams doubleNestedArgs "flux").1 "category_genvr" =
      some (JVal.str "evil") ∧
    getKey
      (generateBody "imagegen" (normalizeParams doubleNestedArgs "flux").2
        (normalizeParams doubleNestedArgs "flux").1)
      "category_genvr" = some (JVal.str "evil") ∧
    getKey (normalizeParams singleNestedArgs "flux").1 "category_genvr" = none := by
  exact ⟨rfl, rfl, rfl⟩

/-- C9: at the tool-dispatch boundary, every invocation outcome of both
call handlers is either a non-error result with one serialized text
entry, or a tool result with isError true whose content is a single text
entry carrying the handler's failure prefix and the error message — no
raised error crosses the boundary in any other shape. -/
theorem tool_dispatch_error_boundary :
    (∀ (α : Type) (stringify : Option α → String) (category subcategory : String)
      (args : JObj) (genT : JObj → Except String (HttpResponse GenData))
      (statusT : ℕ → Except String (HttpResponse StatusData))
      (fetchT : Except String (HttpResponse α)),
      (∃ r, handleCallToolW stringify category subcategory args genT statusT fetchT =
        ⟨[⟨"text", stringify r⟩], false⟩) ∨
      (∃ m, handleCallToolW stringify category subcategory args genT statusT fetchT =
        ⟨[⟨"text", "Tool execution failed: " ++ m⟩], true⟩))
    ∧ (∀ (α : Type) (stringify : α → String) (name : String) (args : Option JVal)
      (genT : JObj → Except String (HttpResponse GenData))
      (statusT : ℕ → Except String (HttpResponse StatusData))
      (fetchT : Except String (HttpResponse α)),
      (∃ r, handleCallTool stringify name args genT statusT fetchT =
        ⟨[⟨"text", stringify r⟩], false⟩) ∨
      (∃ m, handleCallTool stringify name args genT statusT fetchT =
        ⟨[⟨"text", "Error: " ++ m⟩], true⟩)) := by
  constructor
  · intro α stringify category subcategory args genT statusT fetchT
    rcases h : workerToolRun category subcategory args genT statusT fetchT with m | r
    · exact Or.inr ⟨m, by simp [handleCallToolW, h]⟩
    · exact Or.inl ⟨r, by simp [handleCallToolW, h]⟩
  · intro α stringify name args genT statusT fetchT
    rcases h : callToolRun name args genT statusT fetchT with m | r
    · exact Or.inr ⟨m, by simp [handleCallTool, h]⟩
    · exact Or.inl ⟨r, by simp [handleCallTool, h]⟩

/-- C10: when a Worker tool invocation carries userId and accessToken
argument fields, the body submitted to /generate contains both
credential fields verbatim as user parameters, together with the
injected uid field holding the userId value, and the request carries the
bearer Authorization header built from the access token. -/
theorem credentials_forwarded_in_generate_body :
    ∀ (category subcategory : String) (args : JObj) (u a : String),
      (args.map Prod.fst).Nodup →
      getKey args "userId" = some (JVal.str u) →
      getKey args "accessToken" = some (JVal.str a) →
      getKey (workerGenerateRequest category subcategory args u a).body "userId" =
        some (JVal.str u) ∧
      getKey (workerGenerateRequest category subcategory args u a).body "accessToken" =
        some (JVal.str a) ∧
      getKey (workerGenerateRequest category subcategory args u a).body "uid" =
        some (JVal.str u) ∧
      (workerGenerateRequest category subcategory args u a).authorization =
        "Bearer " ++ a ∧
      (workerGenerateRequest category subcategory args u a).url =
        genvrApiBase ++ "/generate" := by
  intro category subcategory args u a hnd hu ha
  have hbody : (workerGenerateRequest category subcategory args u a).body =
      insertKey
        (spreadObj
          [("category", JVal.str category), ("subcategory", JVal.str subcategory)] args)
        "uid" (JVal.str u) := rfl
  refine ⟨?_, ?_, ?_, rfl, rfl⟩
  · rw [hbody, getKey_insertKey_ne _ _ _ _ (by decide),
      getKey_spreadObj _ _ _ hnd, hu]
    rfl
  · rw [hbody, getKey_insertKey_ne _ _ _ _ (by decide),
      getKey_spreadObj _ _ _ hnd, ha]
    rfl
  · rw [hbody, getKey_insertKey_self]

/-- C10 witness: concrete arguments carrying a prompt and both
credential fields. -/
theorem credentials_forwarded_in_generate_body_witness :
    getKey (workerGenerateRequest "imagegen" "flux_dev" credArgs "user-1" "tok-9").body
      "userId" = some (JVal.str "user-1") ∧
    getKey (workerGenerateRequest "imagegen" "flux_dev" credArgs "user-1" "tok-9").body
      "uid" = some (JVal.str "user-1") ∧
    (workerGenerateRequest "imagegen" "flux_dev" credArgs "user-1" "tok-9").authorization =
      "Bearer tok-9" := by
  have h := credentials_forwarded_in_generate_body "imagegen" "flux_dev" credArgs
    "user-1" "tok-9" (by decide) rfl rfl
  exact ⟨h.1, h.2.2.1, h.2.2.2.1.trans (by rfl)⟩
